import Mathlib

/-!
Verification of the Crown auth service (src/services/auth-service-rust/src/main.rs).

Strings of the Rust program are modelled as byte lists (`List Nat`); machine
timestamps are `Nat` seconds since epoch.  The service's own logic (claims
construction in `create_jwt_token`, the handlers, Bearer-prefix stripping and
error mapping) is embedded from the source.  The cryptographic library
internals (the `jsonwebtoken` encode/decode pipeline and the `bcrypt`
hash/verify pair) are not part of this repository's sources, so they are
modelled from the spec, sections 4.1, 4.3 and 4.4; each such definition is
marked `Modelled from the spec:` in its doc comment.
-/

/-- Bytes of a Rust string, for the literal strings appearing in `main.rs`. -/
def strBytes (s : String) : List Nat :=
  s.toList.map Char.toNat

/-- JWT claims struct (`struct Claims`, main.rs lines 10-18).  `exp` and `iat`
are the `usize` second timestamps; the string fields are byte lists. -/
structure Claims where
  sub : List Nat
  exp : Nat
  iat : Nat
  user_id : List Nat
  email : List Nat
  role : List Nat
deriving DecidableEq, Repr

/-- User record (`struct UserData`, main.rs lines 245-253). -/
structure UserData where
  id : List Nat
  email : List Nat
  first_name : List Nat
  last_name : List Nat
  password_hash : List Nat
  role : List Nat
deriving DecidableEq, Repr

/-- Login body (`struct LoginRequest`, main.rs lines 20-24). -/
structure LoginRequest where
  email : List Nat
  password : List Nat
deriving DecidableEq, Repr

/-- Register body (`struct RegisterRequest`, main.rs lines 26-32). -/
structure RegisterRequest where
  email : List Nat
  password : List Nat
  first_name : List Nat
  last_name : List Nat
deriving DecidableEq, Repr

/-- Public user view (`struct UserInfo`, main.rs lines 42-49). -/
structure UserInfo where
  id : List Nat
  email : List Nat
  first_name : List Nat
  last_name : List Nat
  role : List Nat
deriving DecidableEq, Repr

/-- Response of login/register (`struct AuthResponse`, main.rs lines 34-40). -/
structure AuthResponse where
  success : Bool
  message : List Nat
  token : Option (List Nat)
  user : Option UserInfo
deriving DecidableEq, Repr

/-- JWT signing algorithms relevant here (`jsonwebtoken::Algorithm`; the
`"none"` pseudo-algorithm of the JWT standard is included as a header a
hostile client could declare). -/
inductive Alg where
  | HS256 : Alg
  | HS384 : Alg
  | HS512 : Alg
  | noAlg : Alg
deriving DecidableEq, Repr

/-- Verification failures of the token verifier (spec section 7 taxonomy plus
the algorithm-mismatch error the JWT library reports). -/
inductive VerificationError where
  | MalformedToken : VerificationError
  | InvalidSignature : VerificationError
  | Expired : VerificationError
  | InvalidAlgorithm : VerificationError
deriving DecidableEq, Repr

/-- Token-creation failure (spec section 4.3). -/
inductive SignError where
  | SigningError : SignError
deriving DecidableEq, Repr

/-- Orchestrator-level rejection (`struct AuthError` with its
`TokenCreationError` value, main.rs lines 272-291). -/
inductive AuthError where
  | TokenCreationError : AuthError
deriving DecidableEq, Repr

/-- Modelled from the spec: base64url transport encoding of a byte segment
(spec section 6, "three base64url segments").  What matters for the claims is
that it is injective and its output never contains the `.` separator
(byte 46); we realise it as the shift into the alphabet starting at 47. -/
def b64e (l : List Nat) : List Nat :=
  l.map (fun b => b + 47)

/-- Modelled from the spec: base64url decoding; fails on any byte outside the
alphabet. -/
def b64d (l : List Nat) : Option (List Nat) :=
  if l.all (fun b => 47 ≤ b) then some (l.map (fun b => b - 47)) else none

/-- Modelled from the spec: HMAC-SHA256 as an ideal message-authentication
code (spec section 4.3, "computes a message authentication code over
header+payload using the secret").  Idealisation: collisions, which a real
MAC admits only with negligible probability, are absent, making the tag
injective in the (secret, message) pair. -/
def hmacSha256 (secret msg : List Nat) : List Nat :=
  secret.length :: (secret ++ msg)

/-- Length-prefixed field encoding used inside the canonical claims payload. -/
def encL (l : List Nat) : List Nat :=
  l.length :: l

/-- Parse one length-prefixed field, returning the field and the rest. -/
def decL (l : List Nat) : Option (List Nat × List Nat) :=
  match l with
  | [] => none
  | n :: r => if n ≤ r.length then some (r.take n, r.drop n) else none

/-- Modelled from the spec: algorithm tag of the protected JWT header
(spec section 4.4 step 1; the header declares the signing algorithm). -/
def encodeAlg (a : Alg) : List Nat :=
  match a with
  | Alg.HS256 => [0]
  | Alg.HS384 => [1]
  | Alg.HS512 => [2]
  | Alg.noAlg => [3]

/-- Modelled from the spec: decoding of the header's algorithm declaration. -/
def decodeAlg (l : List Nat) : Option Alg :=
  match l with
  | [0] => some Alg.HS256
  | [1] => some Alg.HS384
  | [2] => some Alg.HS512
  | [3] => some Alg.noAlg
  | _ => none

/-- Modelled from the spec: canonical structured claims payload
(spec section 4.3, "encodes claims as a canonical structured payload"). -/
def encodeClaims (c : Claims) : List Nat :=
  encL c.sub ++ c.exp :: c.iat :: (encL c.user_id ++ (encL c.email ++ encL c.role))

/-- Modelled from the spec: payload decoding back into `Claims`
(spec section 4.4 step 3). -/
def decodeClaims (l : List Nat) : Option Claims :=
  match decL l with
  | none => none
  | some (sub, r1) =>
    match r1 with
    | e :: i :: r2 =>
      match decL r2 with
      | none => none
      | some (uid, r3) =>
        match decL r3 with
        | none => none
        | some (em, r4) =>
          match decL r4 with
          | none => none
          | some (ro, r5) =>
            if r5 = [] then some ⟨sub, e, i, uid, em, ro⟩ else none
    | _ => none

/-- Join three wire segments with the `.` separator (byte 46) into the wire
token `header.payload.signature` (spec section 6). -/
def joinSegs (a b c : List Nat) : List Nat :=
  a ++ 46 :: (b ++ 46 :: c)

/-- Scan up to the first `.` byte: returns the bytes before it and, when a
`.` was found, the bytes after it. -/
def breakDot (l : List Nat) : List Nat × Option (List Nat) :=
  match l with
  | [] => ([], none)
  | a :: r =>
    if a = 46 then ([], some r)
    else
      match breakDot r with
      | (x, y) => (a :: x, y)

/-- Modelled from the spec: split a wire token into its exactly three
segments (spec section 4.4 step 1); any other structure is malformed. -/
def splitToken (l : List Nat) : Option (List Nat × List Nat × List Nat) :=
  match breakDot l with
  | (_, none) => none
  | (h, some r1) =>
    match breakDot r1 with
    | (_, none) => none
    | (p, some r2) =>
      match breakDot r2 with
      | (g, none) => some (h, p, g)
      | (_, some _) => none

/-- Wire header segment for the HS256 header `Header::default()` produces
(main.rs line 226). -/
def hdrSeg : List Nat :=
  b64e (encodeAlg Alg.HS256)

/-- Wire payload segment carrying `c`. -/
def pldSeg (c : Claims) : List Nat :=
  b64e (encodeClaims c)

/-- Wire signature segment: MAC over the wire `header.payload` message with
the secret, base64url-encoded (spec section 4.3). -/
def sigSeg (c : Claims) (secret : List Nat) : List Nat :=
  b64e (hmacSha256 secret (hdrSeg ++ 46 :: pldSeg c))

/-- The complete signed wire token for claims `c` under `secret`. -/
def mkToken (c : Claims) (secret : List Nat) : List Nat :=
  joinSegs hdrSeg (pldSeg c) (sigSeg c secret)

/-- Modelled from the spec: the token signer `sign(claims, secret)`
(spec section 4.3): fails with `SigningError` when the secret is empty,
otherwise produces the signed wire token.  This is the `jsonwebtoken::encode`
call of `create_jwt_token` (main.rs lines 225-230). -/
def signClaims (c : Claims) (secret : List Nat) : Except SignError (List Nat) :=
  if secret = [] then Except.error SignError.SigningError
  else Except.ok (mkToken c secret)

/-- Modelled from the spec: the token verifier
`verify(token, secret, now)` (spec section 4.4), as invoked by
`verify_jwt_token` (main.rs lines 233-243) with `Validation::new(Algorithm::HS256)`
pinning the accepted algorithm set to HS256:
1. split into header/payload/signature, else `MalformedToken`;
2. decode the header and require the declared algorithm to be HS256;
3. recompute the MAC over `header.payload` and compare, else `InvalidSignature`;
4. decode the payload claims, else `MalformedToken`;
5. require `now < exp`, else `Expired`.
No clock-skew leeway is applied (spec section 4.4). -/
def verify_jwt_token (tok : List Nat) (secret : List Nat) (now : Nat) :
    Except VerificationError Claims :=
  match splitToken tok with
  | none => Except.error VerificationError.MalformedToken
  | some (hw, pw, gw) =>
    match b64d hw with
    | none => Except.error VerificationError.MalformedToken
    | some hraw =>
      match decodeAlg hraw with
      | none => Except.error VerificationError.MalformedToken
      | some a =>
        if a = Alg.HS256 then
          match b64d gw with
          | none => Except.error VerificationError.MalformedToken
          | some gr =>
            if gr = hmacSha256 secret (hw ++ 46 :: pw) then
              match b64d pw with
              | none => Except.error VerificationError.MalformedToken
              | some praw =>
                match decodeClaims praw with
                | none => Except.error VerificationError.MalformedToken
                | some c =>
                  if now < c.exp then Except.ok c
                  else Except.error VerificationError.Expired
            else Except.error VerificationError.InvalidSignature
        else Except.error VerificationError.InvalidAlgorithm

/-- Claims construction inside `create_jwt_token` (main.rs lines 211-223):
`exp` is now plus the fixed 24-hour window, `iat` is now, `sub` and
`user_id` are the user's id, with email and role copied over. -/
def buildClaims (u : UserData) (now : Nat) : Claims :=
  { sub := u.id
    exp := now + 24 * 3600
    iat := now
    user_id := u.id
    email := u.email
    role := u.role }

/-- `create_jwt_token` (main.rs lines 209-231): builds the claims and signs
them; a signing failure is mapped to the orchestrator rejection
`AuthError::TokenCreationError`.  The secret (the process-wide `JWT_SECRET`
configuration) and the clock reading are explicit arguments. -/
def create_jwt_token (u : UserData) (secret : List Nat) (now : Nat) :
    Except AuthError (List Nat) :=
  match signClaims (buildClaims u now) secret with
  | Except.ok t => Except.ok t
  | Except.error _ => Except.error AuthError.TokenCreationError

/-- Modelled from the spec: the bcrypt digest inside a password hash
(spec section 4.1, "deterministic one-way transform with embedded randomized
salt and a fixed work factor").  Idealisation: collisions between distinct
passwords, which occur only with negligible probability, are absent. -/
def bcryptDigest (salt p : List Nat) : List Nat :=
  salt.length :: (salt ++ p)

/-- Modelled from the spec: `bcrypt::hash` output for password `p` with the
drawn salt embedded in the hash string (main.rs lines 149 and 264 call it
with `DEFAULT_COST`). -/
def bcryptHash (salt p : List Nat) : List Nat :=
  salt.length :: (salt ++ bcryptDigest salt p)

/-- Modelled from the spec: `bcrypt::verify(p, h)`, which parses the salt
embedded in `h`, recomputes the digest of `p` and compares; a hash string
that does not parse is an error (`none`), mirroring the `Result` the library
returns (main.rs line 111 applies `.unwrap_or(false)` to it). -/
def bcryptVerify (p h : List Nat) : Option Bool :=
  match decL h with
  | none => none
  | some (salt, d) => some (decide (d = bcryptDigest salt p))

/-- The password check of `handle_login` (main.rs line 111):
`verify(&login_req.password, &user_data.password_hash).unwrap_or(false)`. -/
def verifyPassword (p h : List Nat) : Bool :=
  (bcryptVerify p h).getD false

/-- `handle_login` (main.rs lines 104-146).  The credential store lookup is
the external collaborator `lookup`; a token-creation failure propagates as a
rejection through the `?` operator. -/
def handle_login (req : LoginRequest) (lookup : List Nat → Option UserData)
    (secret : List Nat) (now : Nat) : Except AuthError AuthResponse :=
  match lookup req.email with
  | some u =>
    if verifyPassword req.password u.password_hash then
      match create_jwt_token u secret now with
      | Except.error e => Except.error e
      | Except.ok tok =>
        Except.ok
          { success := true
            message := strBytes "Login successful"
            token := some tok
            user := some ⟨u.id, u.email, u.first_name, u.last_name, u.role⟩ }
    else
      Except.ok
        { success := false
          message := strBytes "Invalid credentials"
          token := none
          user := none }
  | none =>
    Except.ok
      { success := false
        message := strBytes "User not found"
        token := none
        user := none }

/-- `handle_register` (main.rs lines 148-177): hashes the password, builds
the transient user record with role `"user"`, signs a token (failures
propagate through `?` as a rejection) and answers success.  The fresh UUID
and the bcrypt salt draw are the explicit arguments `newId` and `salt`. -/
def handle_register (req : RegisterRequest) (newId salt : List Nat)
    (secret : List Nat) (now : Nat) : Except AuthError AuthResponse :=
  let password_hash := bcryptHash salt req.password
  let u : UserData :=
    { id := newId
      email := req.email
      first_name := req.first_name
      last_name := req.last_name
      password_hash := password_hash
      role := strBytes "user" }
  match create_jwt_token u secret now with
  | Except.error e => Except.error e
  | Except.ok tok =>
    Except.ok
      { success := true
        message := strBytes "Registration successful"
        token := some tok
        user := some ⟨u.id, u.email, u.first_name, u.last_name, u.role⟩ }

/-- The two JSON response shapes of `handle_verify_token`
(main.rs lines 183-189 and 193-205). -/
inductive VerifyResp where
  | valid (user_id email role : List Nat) (expires_at : Nat) : VerifyResp
  | invalid (error : List Nat) : VerifyResp
deriving DecidableEq, Repr

/-- The byte string `"Bearer "`. -/
def bearerBytes : List Nat :=
  strBytes "Bearer "

/-- `auth_header.strip_prefix("Bearer ")` (main.rs line 180): the remainder
after the exact, case-sensitive 7-byte marker, when present. -/
def stripBearer (h : List Nat) : Option (List Nat) :=
  if h.take 7 = bearerBytes then some (h.drop 7) else none

/-- Mapping of the verifier's outcome to the response body
(main.rs lines 181-199). -/
def respOfVerify (r : Except VerificationError Claims) : VerifyResp :=
  match r with
  | Except.ok c => VerifyResp.valid c.user_id c.email c.role c.exp
  | Except.error _ => VerifyResp.invalid (strBytes "Invalid or expired token")

/-- `handle_verify_token` (main.rs lines 179-207): token verification runs
only on the remainder of a header carrying the exact `"Bearer "` marker;
otherwise the malformed-header response is returned directly. -/
def handle_verify_token (auth_header : List Nat) (secret : List Nat)
    (now : Nat) : VerifyResp :=
  match stripBearer auth_header with
  | some tok => respOfVerify (verify_jwt_token tok secret now)
  | none => VerifyResp.invalid (strBytes "Invalid authorization header format")

/-- A verification outcome the tamper-sensitivity property allows: the
signature mismatch error or the malformed-token error, never a success. -/
def rejectsTamper (r : Except VerificationError Claims) : Prop :=
  r = Except.error VerificationError.InvalidSignature ∨
    r = Except.error VerificationError.MalformedToken

theorem unshift_shift (l : List Nat) :
    List.map ((fun b => b - 47) ∘ (fun b => b + 47)) l = l := by
  induction l with
  | nil => rfl
  | cons x xs ih =>
    simp only [List.map_cons, Function.comp_apply, Nat.add_sub_cancel, ih]

theorem b64d_b64e (l : List Nat) : b64d (b64e l) = some l := by
  simp [b64d, b64e, List.all_eq_true, unshift_shift]

theorem b64e_inj {l m : List Nat} (h : b64e l = b64e m) : l = m := by
  have := congrArg (fun x => x.map (fun b => b - 47)) h
  simpa [b64e, unshift_shift] using this

theorem noDot_b64e (l : List Nat) : ¬ (46 ∈ b64e l) := by
  intro h
  rcases List.mem_map.mp h with ⟨b, _, hb⟩
  omega

theorem hmac_inj {s1 m1 s2 m2 : List Nat}
    (h : hmacSha256 s1 m1 = hmacSha256 s2 m2) : s1 = s2 ∧ m1 = m2 := by
  simp only [hmacSha256, List.cons.injEq] at h
  obtain ⟨hlen, happ⟩ := h
  have hs : s1 = s2 := by
    have := congrArg (fun x => x.take s1.length) happ
    simpa [hlen, List.take_left] using this
  subst hs
  exact ⟨rfl, List.append_cancel_left happ⟩

theorem breakDot_append {a : List Nat} (r : List Nat) (ha : ¬ (46 ∈ a)) :
    breakDot (a ++ 46 :: r) = (a, some r) := by
  induction a with
  | nil => simp [breakDot]
  | cons x xs ih =>
    have hx : ¬ x = 46 := by
      intro h
      exact ha (h ▸ List.mem_cons_self x xs)
    have hxs : ¬ (46 ∈ xs) := fun h => ha (List.mem_cons_of_mem x h)
    simp [breakDot, hx, ih hxs]

theorem breakDot_noDot {a : List Nat} (ha : ¬ (46 ∈ a)) :
    breakDot a = (a, none) := by
  induction a with
  | nil => simp [breakDot]
  | cons x xs ih =>
    have hx : ¬ x = 46 := by
      intro h
      exact ha (h ▸ List.mem_cons_self x xs)
    have hxs : ¬ (46 ∈ xs) := fun h => ha (List.mem_cons_of_mem x h)
    simp [breakDot, hx, ih hxs]

theorem splitToken_joinSegs {a b c : List Nat}
    (ha : ¬ (46 ∈ a)) (hb : ¬ (46 ∈ b)) (hc : ¬ (46 ∈ c)) :
    splitToken (joinSegs a b c) = some (a, b, c) := by
  simp [splitToken, joinSegs, breakDot_append _ ha, breakDot_append _ hb,
    breakDot_noDot hc]

theorem decL_encL (x r : List Nat) : decL (encL x ++ r) = some (x, r) := by
  simp [decL, encL, List.take_left, List.drop_left]

theorem decL_encL_nil (x : List Nat) : decL (encL x) = some (x, []) := by
  have := decL_encL x []
  simpa using this

theorem decodeClaims_encodeClaims (c : Claims) :
    decodeClaims (encodeClaims c) = some c := by
  obtain ⟨s, e, i, u, m, r⟩ := c
  simp [decodeClaims, encodeClaims, decL_encL, decL_encL_nil]

theorem verify_mkToken (c : Claims) (s : List Nat) (now : Nat) :
    verify_jwt_token (mkToken c s) s now =
      if now < c.exp then Except.ok c
      else Except.error VerificationError.Expired := by
  simp only [verify_jwt_token, mkToken, hdrSeg, pldSeg, sigSeg]
  rw [splitToken_joinSegs (noDot_b64e _) (noDot_b64e _) (noDot_b64e _)]
  simp [b64d_b64e, decodeAlg, encodeAlg, decodeClaims_encodeClaims]

/-- Claim C1: signing valid claims `c` with secret `s` succeeds (the secret
being nonempty) and yields exactly the wire token `mkToken c s`, and
verifying that token with the same secret at any time `now` before
`c.exp` succeeds and returns claims equal to `c`. -/
theorem token_round_trip (c : Claims) (s : List Nat) (now : Nat)
    (hs : s ≠ []) (hnow : now < c.exp) :
    signClaims c s = Except.ok (mkToken c s) ∧
      verify_jwt_token (mkToken c s) s now = Except.ok c := by
  constructor
  · simp [signClaims, hs]
  · rw [verify_mkToken]
    simp [hnow]

/-- Witness for C1 at concrete claims, secret and time. -/
theorem token_round_trip_witness :
    verify_jwt_token (mkToken ⟨[7], 100, 1, [7], [5], [9]⟩ [3, 4]) [3, 4] 42 =
      Except.ok ⟨[7], 100, 1, [7], [5], [9]⟩ :=
  (token_round_trip ⟨[7], 100, 1, [7], [5], [9]⟩ [3, 4] 42 (by decide)
    (by decide)).2

/-- Claim C3: a correctly signed token is rejected with `Expired` exactly
when `now < exp` fails — no clock-skew leeway; in particular a token whose
`exp` equals `now - 1` is rejected with `Expired`. -/
theorem expiry_no_leeway (c : Claims) (s : List Nat) (now : Nat)
    (_hs : s ≠ []) :
    (verify_jwt_token (mkToken c s) s now =
        Except.error VerificationError.Expired ↔ c.exp ≤ now) ∧
      (c.exp = now - 1 → 0 < now →
        verify_jwt_token (mkToken c s) s now =
          Except.error VerificationError.Expired) := by
  have h := verify_mkToken c s now
  constructor
  · constructor
    · intro hv
      by_contra hle
      rw [h, if_pos (by omega)] at hv
      exact Except.noConfusion hv
    · intro hle
      rw [h, if_neg (by omega)]
  · intro he hpos
    rw [h, if_neg (by omega)]

/-- Witness for C3: a token signed for `exp = 4` checked at `now = 5`
(so `exp = now - 1`) is rejected as expired. -/
theorem expiry_no_leeway_witness :
    verify_jwt_token (mkToken ⟨[1], 4, 0, [1], [2], [3]⟩ [9]) [9] 5 =
      Except.error VerificationError.Expired :=
  (expiry_no_leeway ⟨[1], 4, 0, [1], [2], [3]⟩ [9] 5 (by decide)).2
    (by decide) (by decide)

/-- Claim C9: claims built during issuance satisfy `exp > iat`, with `exp`
equal to the issuance time plus the fixed 24-hour window. -/
theorem claims_timestamps (u : UserData) (now : Nat) :
    (buildClaims u now).iat < (buildClaims u now).exp ∧
      (buildClaims u now).exp = now + 24 * 3600 := by
  simp [buildClaims]

/-- Claim C10: a token whose header declares any algorithm other than HS256
is rejected with an error, never decoded claims — even when its signature is
a correct MAC for its own contents. -/
theorem alg_pinning (a : Alg) (c : Claims) (s : List Nat) (now : Nat)
    (ha : a ≠ Alg.HS256) :
    verify_jwt_token
        (joinSegs (b64e (encodeAlg a)) (pldSeg c)
          (b64e (hmacSha256 s (b64e (encodeAlg a) ++ 46 :: pldSeg c))))
        s now =
      Except.error VerificationError.InvalidAlgorithm := by
  simp only [verify_jwt_token, pldSeg]
  rw [splitToken_joinSegs (noDot_b64e _) (noDot_b64e _) (noDot_b64e _)]
  cases a with
  | HS256 => exact absurd rfl ha
  | HS384 => simp [b64d_b64e, decodeAlg, encodeAlg]
  | HS512 => simp [b64d_b64e, decodeAlg, encodeAlg]
  | noAlg => simp [b64d_b64e, decodeAlg, encodeAlg]

/-- Witness for C10: an otherwise well-formed token declaring the `"none"`
algorithm is rejected. -/
theorem alg_pinning_witness :
    verify_jwt_token
        (joinSegs (b64e (encodeAlg Alg.noAlg)) (pldSeg ⟨[1], 9, 0, [1], [2], [3]⟩)
          (b64e (hmacSha256 [5]
            (b64e (encodeAlg Alg.noAlg) ++ 46 :: pldSeg ⟨[1], 9, 0, [1], [2], [3]⟩))))
        [5] 0 =
      Except.error VerificationError.InvalidAlgorithm :=
  alg_pinning Alg.noAlg ⟨[1], 9, 0, [1], [2], [3]⟩ [5] 0 (by decide)

theorem b64e_b64d {l r : List Nat} (h : b64d l = some r) : b64e r = l := by
  simp only [b64d] at h
  split at h
  · next hall =>
    obtain rfl : l.map (fun b => b - 47) = r := Option.some.inj h
    rw [b64e, List.map_map]
    have hmem : ∀ x ∈ l, ((fun b => b + 47) ∘ (fun b => b - 47)) x = x := by
      intro x hx
      have h47 : 47 ≤ x := by
        have := List.all_eq_true.mp hall x hx
        simpa using this
      simp only [Function.comp_apply]
      omega
    rw [List.map_congr_left hmem]
    simp
  · exact Option.noConfusion h

theorem set_ne_of_ne {l : List Nat} {i b : Nat} (hi : i < l.length)
    (hb : b ≠ l[i]) : l.set i b ≠ l := by
  intro h
  have h1 : (l.set i b)[i]? = some b := List.getElem?_set_self hi
  rw [h, List.getElem?_eq_getElem hi] at h1
  exact hb (Option.some.inj h1).symm

theorem noDot_set {l : List Nat} {i b : Nat} (hl : ¬ (46 ∈ l))
    (hb : b ≠ 46) : ¬ (46 ∈ l.set i b) := by
  intro h
  rcases List.mem_or_eq_of_mem_set h with h' | h'
  · exact hl h'
  · exact hb h'.symm

theorem splitToken_mid_dot {a g : List Nat} (x y : List Nat)
    (ha : ¬ (46 ∈ a)) (hx : ¬ (46 ∈ x)) (hy : ¬ (46 ∈ y)) :
    splitToken (joinSegs a (x ++ 46 :: y) g) = none := by
  have h1 : joinSegs a (x ++ 46 :: y) g =
      a ++ 46 :: (x ++ 46 :: (y ++ 46 :: g)) := by
    simp [joinSegs]
  rw [h1]
  simp [splitToken, breakDot_append _ ha, breakDot_append _ hx,
    breakDot_append _ hy]

theorem splitToken_sig_dot {a b : List Nat} (x y : List Nat)
    (ha : ¬ (46 ∈ a)) (hb : ¬ (46 ∈ b)) (hx : ¬ (46 ∈ x)) :
    splitToken (joinSegs a b (x ++ 46 :: y)) = none := by
  simp [splitToken, joinSegs, breakDot_append _ ha, breakDot_append _ hb,
    breakDot_append _ hx]

/-- Claim C2: for a signed token, changing any byte of the payload segment or
of the signature segment makes verification return `InvalidSignature` or
`MalformedToken`, never decoded claims; and verification with any secret
other than the signing secret fails the same way. -/
theorem tamper_sensitivity (c : Claims) (s s' : List Nat)
    (now i j b d : Nat)
    (hi : i < (pldSeg c).length) (hb : b ≠ (pldSeg c)[i])
    (hj : j < (sigSeg c s).length) (hd : d ≠ (sigSeg c s)[j]) :
    rejectsTamper
        (verify_jwt_token
          (joinSegs hdrSeg ((pldSeg c).set i b) (sigSeg c s)) s now) ∧
      rejectsTamper
        (verify_jwt_token
          (joinSegs hdrSeg (pldSeg c) ((sigSeg c s).set j d)) s now) ∧
      (s' ≠ s →
        rejectsTamper (verify_jwt_token (mkToken c s) s' now)) := by
  have hA : ¬ (46 ∈ hdrSeg) := noDot_b64e (encodeAlg Alg.HS256)
  have hB : ¬ (46 ∈ pldSeg c) := noDot_b64e (encodeClaims c)
  have hG : ¬ (46 ∈ sigSeg c s) :=
    noDot_b64e (hmacSha256 s (hdrSeg ++ 46 :: pldSeg c))
  have hbdh : b64d hdrSeg = some (encodeAlg Alg.HS256) := b64d_b64e _
  have hda : decodeAlg (encodeAlg Alg.HS256) = some Alg.HS256 := rfl
  have hsd : b64d (sigSeg c s) =
      some (hmacSha256 s (hdrSeg ++ 46 :: pldSeg c)) := b64d_b64e _
  refine ⟨?_, ?_, ?_⟩
  · by_cases hb46 : b = 46
    · subst hb46
      rw [List.set_eq_take_cons_drop 46 hi, verify_jwt_token,
        splitToken_mid_dot _ _ hA
          (fun hm => hB (List.Sublist.mem hm (List.take_sublist _ _)))
          (fun hm => hB (List.Sublist.mem hm (List.drop_sublist _ _)))]
      simp [rejectsTamper]
    · have hB' : ¬ (46 ∈ (pldSeg c).set i b) := noDot_set hB hb46
      have hne : hmacSha256 s (hdrSeg ++ 46 :: pldSeg c) ≠
          hmacSha256 s (hdrSeg ++ 46 :: (pldSeg c).set i b) := by
        intro h
        have h2 := (hmac_inj h).2
        have h3 := List.append_cancel_left h2
        injection h3 with h4 h5
        exact set_ne_of_ne hi hb h5.symm
      rw [verify_jwt_token, splitToken_joinSegs hA hB' hG]
      simp [hbdh, hda, hsd, hne, rejectsTamper]
  · by_cases hd46 : d = 46
    · subst hd46
      rw [List.set_eq_take_cons_drop 46 hj, verify_jwt_token,
        splitToken_sig_dot _ _ hA hB
          (fun hm => hG (List.Sublist.mem hm (List.take_sublist _ _)))]
      simp [rejectsTamper]
    · have hG' : ¬ (46 ∈ (sigSeg c s).set j d) := noDot_set hG hd46
      rw [verify_jwt_token, splitToken_joinSegs hA hB hG']
      cases hgd : b64d ((sigSeg c s).set j d) with
      | none => simp [hbdh, hda, hgd, rejectsTamper]
      | some r =>
        have hr : r ≠ hmacSha256 s (hdrSeg ++ 46 :: pldSeg c) := by
          intro h
          have hback := b64e_b64d hgd
          rw [h] at hback
          exact set_ne_of_ne hj hd hback.symm
        simp [hbdh, hda, hgd, hr, rejectsTamper]
  · intro hss
    have hne2 : hmacSha256 s (hdrSeg ++ 46 :: pldSeg c) ≠
        hmacSha256 s' (hdrSeg ++ 46 :: pldSeg c) := by
      intro h
      exact hss ((hmac_inj h).1).symm
    rw [mkToken, verify_jwt_token, splitToken_joinSegs hA hB hG]
    simp [hbdh, hda, hsd, hne2, rejectsTamper]

/-- Witness for C2 at a concrete token: byte 0 of the payload segment
changed to 49, byte 0 of the signature segment changed to 50, and the
wrong secret `[2]` for a token signed with `[1]`. -/
theorem tamper_sensitivity_witness :
    rejectsTamper
        (verify_jwt_token
          (joinSegs hdrSeg
            ((pldSeg ⟨[5], 9, 1, [5], [6], [7]⟩).set 0 49)
            (sigSeg ⟨[5], 9, 1, [5], [6], [7]⟩ [1])) [1] 3) ∧
      rejectsTamper
        (verify_jwt_token
          (joinSegs hdrSeg (pldSeg ⟨[5], 9, 1, [5], [6], [7]⟩)
            ((sigSeg ⟨[5], 9, 1, [5], [6], [7]⟩ [1]).set 0 50)) [1] 3) ∧
      rejectsTamper
        (verify_jwt_token (mkToken ⟨[5], 9, 1, [5], [6], [7]⟩ [1]) [2] 3) := by
  have h := tamper_sensitivity ⟨[5], 9, 1, [5], [6], [7]⟩ [1] [2] 3 0 0 49 50
    (by decide) (by decide) (by decide) (by decide)
  exact ⟨h.1, h.2.1, h.2.2 (by decide)⟩

/-- Claim C4 counterexample: a register request with an empty email is
accepted and a token is signed for it — `handle_register` and
`create_jwt_token` perform no identifier validation. -/
theorem empty_identifier_cex :
    (handle_register ⟨[], [1], [2], [3]⟩ [4] [5] [6] 0).toOption.map
        (fun r => (r.success, r.token.isSome)) = some (true, true) := by
  decide

/-- Claim C4 amended: claims building performs no emptiness validation on
the identifier: with any nonempty secret, a register request with an empty
email produces a success response carrying a signed token whose claims
embed the empty email. -/
theorem empty_identifier_amended (p f l newId salt s : List Nat) (now : Nat)
    (hs : s ≠ []) :
    handle_register ⟨[], p, f, l⟩ newId salt s now =
      Except.ok
        ⟨true, strBytes "Registration successful",
          some (mkToken
            (buildClaims
              ⟨newId, [], f, l, bcryptHash salt p, strBytes "user"⟩ now) s),
          some ⟨newId, [], f, l, strBytes "user"⟩⟩ := by
  simp [handle_register, create_jwt_token, signClaims, hs]

/-- Witness for the amended C4 at a concrete request. -/
theorem empty_identifier_amended_witness :
    handle_register ⟨[], [1], [2], [3]⟩ [4] [5] [6] 0 =
      Except.ok
        ⟨true, strBytes "Registration successful",
          some (mkToken
            (buildClaims
              ⟨[4], [], [2], [3], bcryptHash [5] [1], strBytes "user"⟩ 0) [6]),
          some ⟨[4], [], [2], [3], strBytes "user"⟩⟩ :=
  empty_identifier_amended [1] [2] [3] [4] [5] [6] 0 (by decide)

/-- Claim C5: signing fails with `SigningError` exactly when the secret is
empty (the only token-creation failure), and `handle_register` under an
empty secret propagates it as the orchestration rejection
`TokenCreationError` rather than a `success := false` response. -/
theorem empty_secret_signing (c : Claims) (s : List Nat)
    (req : RegisterRequest) (newId salt : List Nat) (now : Nat) :
    (signClaims c s = Except.error SignError.SigningError ↔ s = []) ∧
      handle_register req newId salt [] now =
        Except.error AuthError.TokenCreationError := by
  constructor
  · constructor
    · intro h
      by_contra hne
      simp [signClaims, hne] at h
    · intro h
      simp [signClaims, h]
  · simp [handle_register, create_jwt_token, signClaims]

/-- Witness for C5: concrete claims signed with the empty secret fail. -/
theorem empty_secret_signing_witness :
    signClaims ⟨[1], 2, 0, [1], [2], [3]⟩ [] =
      Except.error SignError.SigningError :=
  ((empty_secret_signing ⟨[1], 2, 0, [1], [2], [3]⟩ []
    ⟨[], [], [], []⟩ [] [] 0).1).mpr rfl

/-- Claim C6: verifying a password against its own hash succeeds, and
verifying any distinct password against that hash fails (in the ideal,
collision-free model of the hash). -/
theorem password_hash_round_trip (salt p p1 p2 : List Nat) (hne : p1 ≠ p2) :
    verifyPassword p (bcryptHash salt p) = true ∧
      verifyPassword p1 (bcryptHash salt p2) = false := by
  have hsh : ∀ q : List Nat, bcryptHash salt q = encL salt ++ bcryptDigest salt q := by
    intro q
    simp [bcryptHash, encL]
  have hdig : bcryptDigest salt p2 ≠ bcryptDigest salt p1 := by
    intro h
    simp only [bcryptDigest, List.cons.injEq] at h
    exact hne (List.append_cancel_left h.2).symm
  constructor
  · simp [verifyPassword, bcryptVerify, hsh, decL_encL]
  · simp [verifyPassword, bcryptVerify, hsh, decL_encL, hdig]

/-- Witness for C6 with distinct concrete passwords. -/
theorem password_hash_round_trip_witness :
    verifyPassword [1, 2] (bcryptHash [9] [1, 2]) = true ∧
      verifyPassword [1, 2] (bcryptHash [9] [3]) = false :=
  password_hash_round_trip [9] [1, 2] [1, 2] [3] (by decide)

/-- Claim C7: password verification is total — a malformed stored hash
(one the hash parser rejects) verifies as `false` rather than raising, so a
login against such a record answers the invalid-credentials response. -/
theorem hasher_verification_total (p h : List Nat) (hm : decL h = none)
    (req : LoginRequest) (u : UserData) (hu : u.password_hash = h)
    (s : List Nat) (now : Nat) :
    verifyPassword p h = false ∧
      handle_login req (fun _ => some u) s now =
        Except.ok ⟨false, strBytes "Invalid credentials", none, none⟩ := by
  constructor
  · simp [verifyPassword, bcryptVerify, hm]
  · simp [handle_login, hu, verifyPassword, bcryptVerify, hm]

/-- Witness for C7: the empty byte string is a malformed bcrypt hash. -/
theorem hasher_verification_total_witness :
    verifyPassword [1] [] = false ∧
      handle_login ⟨[2], [1]⟩ (fun _ => some ⟨[3], [2], [4], [5], [], [6]⟩)
          [7] 0 =
        Except.ok ⟨false, strBytes "Invalid credentials", none, none⟩ :=
  hasher_verification_total [1] [] (by decide) ⟨[2], [1]⟩
    ⟨[3], [2], [4], [5], [], [6]⟩ (by decide) [7] 0

/-- Claim C8: `handle_verify_token` runs token verification exactly on the
remainder of a header whose first seven bytes are the case-sensitive
`"Bearer "`; any other header gets the malformed-header response with no
verification attempted. -/
theorem bearer_exactness (h s : List Nat) (now : Nat) :
    (h.take 7 = bearerBytes →
      handle_verify_token h s now =
        respOfVerify (verify_jwt_token (h.drop 7) s now)) ∧
      (h.take 7 ≠ bearerBytes →
        handle_verify_token h s now =
          VerifyResp.invalid (strBytes "Invalid authorization header format")) := by
  constructor
  · intro hp
    simp [handle_verify_token, stripBearer, hp]
  · intro hp
    simp [handle_verify_token, stripBearer, hp]

/-- Witness for C8: the header `"Token abc"` is answered with the
malformed-header response. -/
theorem bearer_exactness_witness :
    handle_verify_token (strBytes "Token abc") [1] 0 =
      VerifyResp.invalid (strBytes "Invalid authorization header format") :=
  (bearer_exactness (strBytes "Token abc") [1] 0).2 (by decide)
